import Mathlib

/-!
Verification of the monero wallet RPC client (typed implementation in
src/unnamed/part_001 of the repository, the authoritative variant).

The client is embedded shallowly: the promise returned by the HTTP
transport becomes an explicit `TransportOutcome` parameter of each
operation, JavaScript values flowing through the JSON layer become the
`Json` inductive, and the in-place mutation of the destinations array in
`transfer` and `transferSplit` becomes explicit state passing (the
operations return the mutated array alongside the call outcome).
-/

namespace Monero

/-- JavaScript values as they appear in the JSON-RPC layer. `undefined`
is produced by property access on objects lacking the key; it never
occurs in a parsed response body. Numbers are modelled as rationals. -/
inductive Json where
  | undefined : Json
  | null : Json
  | bool : Bool → Json
  | num : ℚ → Json
  | str : String → Json
  | arr : List Json → Json
  | obj : List (String × Json) → Json

/-- JavaScript falsiness for the modelled values: undefined, null,
false, 0 and the empty string are falsy; arrays and objects are truthy. -/
def isFalsy : Json → Bool
  | .undefined => true
  | .null => true
  | .bool b => !b
  | .num q => if q = 0 then true else false
  | .str s => if s = "" then true else false
  | .arr _ => false
  | .obj _ => false

/-- JavaScript property access `v[k]`: looks the key up in an object,
yields undefined on a missing key or a non-object receiver. -/
def getField (v : Json) (k : String) : Json :=
  match v with
  | .obj fields =>
    match fields.find? (fun p => p.1 == k) with
    | some p => p.2
    | none => .undefined
  | _ => .undefined

/-- interface RPCCallError of the source: code and message. -/
structure RPCCallError where
  code : Int
  message : String

/-- interface RPCCallResponse of the source: method, id, and optional
result and error fields (a field absent from the body is none). -/
structure RPCCallResponse where
  method : String
  id : String
  result : Option Json
  error : Option RPCCallError

/-- Outcome of the awaited transport call as the typed interfaces of
the source describe it: the promise either rejects with some reason
value, or resolves to a body already parsed into the RPCCallResponse
shape (an object with optional result and error fields). This envelope
view covers rejections with truthy reasons and object bodies, the
domain of the error-classification claims; the full runtime behaviour
of the same lines, including the crash on a falsy rejection reason or a
null body, is modelled by requestRaw below. -/
inductive TransportOutcome where
  | reject : Json → TransportOutcome
  | resolve : RPCCallResponse → TransportOutcome

/-- The error side of the await-protect Result as the source builds it:
either the transport rejection reason passed through unchanged
(Result.err(err)), or a JavaScript Error constructed from a message
string (new Error(msg)). -/
inductive ErrVal where
  | cause : Json → ErrVal
  | jsError : String → ErrVal

/-- The tagged result every operation returns (await-protect Result). -/
inductive RResult where
  | ok : Json → RResult
  | err : ErrVal → RResult

/-- The fixed message used for a body lacking a usable result field. -/
def corruptedMsg : String := "Found corrupted Monero JSON RPC response."

/-- Client configuration held by the Wallet object. -/
structure Config where
  hostname : String
  port : Nat
  user : String
  pass : String

/-- The auth object attached to the outbound request options. -/
structure AuthOptions where
  user : String
  pass : String
  sendImmediately : Bool

/-- The json body of the outbound request: jsonrpc, id, method, and the
params field added only when the params value is truthy. -/
structure JsonRpcBody where
  jsonrpc : String
  id : String
  method : String
  params : Option Json

/-- The options object handed to request.post. -/
structure RequestOptions where
  forever : Bool
  json : JsonRpcBody
  auth : Option AuthOptions

/-- JavaScript `x || d` for an optional string argument: undefined or
the empty string fall back to the default. -/
def jsOrStr (x : Option String) (d : String) : String :=
  match x with
  | none => d
  | some s => if s = "" then d else s

/-- JavaScript `x || d` for an optional numeric argument: undefined or
zero fall back to the default. -/
def jsOrNum (x : Option ℚ) (d : ℚ) : ℚ :=
  match x with
  | none => d
  | some q => if q = 0 then d else q

/-- JavaScript `x || d` for an optional natural-number argument. -/
def jsOrNat (x : Option Nat) (d : Nat) : Nat :=
  match x with
  | none => d
  | some n => if n = 0 then d else n

/-- JavaScript `x || d` for an optional boolean argument. -/
def jsOrBool (x : Option Bool) (d : Bool) : Bool :=
  match x with
  | none => d
  | some b => if b then b else d

/-- JavaScript `options.pid || null` used for the payment id field. -/
def jsOrNull (x : Option String) : Json :=
  match x with
  | none => .null
  | some s => if s = "" then .null else .str s

/-- The Wallet constructor: each parameter is defaulted through `||`
when absent or falsy. The constructor also fires an unawaited warm-up
get_balance call whose result is discarded; it has no observable effect
on the configuration and is not modelled. -/
def mkWallet (hostname : Option String) (port : Option Nat)
    (user : Option String) (pass : Option String) : Config :=
  { hostname := jsOrStr hostname "127.0.0.1"
    port := jsOrNat port 18082
    user := jsOrStr user ""
    pass := jsOrStr pass "" }

/-- The URL the request is posted to. -/
def requestUrl (cfg : Config) : String :=
  "http://" ++ cfg.hostname ++ ":" ++ toString cfg.port ++ "/json_rpc"

/-- Building the options object of Wallet.request: forever flag, the
jsonrpc body (params added only when truthy), and the auth object added
only when the configured user name is truthy (non-empty), with
sendImmediately false. -/
def buildOptions (cfg : Config) (method : String) (params : Json) : RequestOptions :=
  { forever := true
    json :=
      { jsonrpc := "2.0"
        id := "0"
        method := method
        params := if isFalsy params then none else some params }
    auth :=
      if cfg.user = "" then none
      else some { user := cfg.user, pass := cfg.pass, sendImmediately := false } }

/-- The response-handling tail of Wallet.request (lines 84 to 101) over
the envelope view: a rejected transport call is wrapped as err with its
reason; a response with a truthy error field becomes err of a new Error
holding only the message; a response whose result field is absent or
falsy becomes err of a new Error with the fixed corrupted-response
message; otherwise the result payload is returned as ok. On the
envelope view the reject branch reflects truthy rejection reasons, for
which the if (err) guard of the source fires; requestRaw below keeps
the guard itself and the crash cases it lets through. -/
def handleResponse (outcome : TransportOutcome) : RResult :=
  match outcome with
  | .reject reason => .err (.cause reason)
  | .resolve res =>
    match res.error with
    | some e => .err (.jsError e.message)
    | none =>
      match res.result with
      | none => .err (.jsError corruptedMsg)
      | some x => if isFalsy x then .err (.jsError corruptedMsg) else .ok x

/-- Everything observable about one call of Wallet.request: the URL and
options of the outbound POST, and the tagged result computed from the
transport outcome. -/
structure CallOutcome where
  url : String
  options : RequestOptions
  result : RResult

/-- Wallet.request: builds the outbound POST and classifies the
transport outcome. -/
def request (cfg : Config) (method : String) (params : Json)
    (outcome : TransportOutcome) : CallOutcome :=
  { url := requestUrl cfg
    options := buildOptions cfg method params
    result := handleResponse outcome }

/-- The field-unwrap tail shared by the unwrapping operations: when the
result value r.res is truthy, rewrap the named field of the payload as
ok; otherwise return r unchanged. -/
def unwrapField (k : String) (c : CallOutcome) : CallOutcome :=
  { c with
    result :=
      match c.result with
      | .ok v => if isFalsy v then .ok v else .ok (getField v k)
      | .err e => .err e }

/-- createWallet: create_wallet with filename, password and language
defaulted through `||`. -/
def createWallet (cfg : Config) (filename password language : Option String)
    (outcome : TransportOutcome) : CallOutcome :=
  request cfg "create_wallet"
    (.obj [("filename", .str (jsOrStr filename "monero_wallet")),
           ("password", .str (jsOrStr password "")),
           ("language", .str (jsOrStr language "English"))]) outcome

/-- openWallet: open_wallet with filename and password defaulted. -/
def openWallet (cfg : Config) (filename password : Option String)
    (outcome : TransportOutcome) : CallOutcome :=
  request cfg "open_wallet"
    (.obj [("filename", .str (jsOrStr filename "monero_wallet")),
           ("password", .str (jsOrStr password ""))]) outcome

/-- stopWallet: stop_wallet with the defaulted empty params object. -/
def stopWallet (cfg : Config) (outcome : TransportOutcome) : CallOutcome :=
  request cfg "stop_wallet" (.obj []) outcome

/-- getBalance: get_balance, pass-through. -/
def getBalance (cfg : Config) (outcome : TransportOutcome) : CallOutcome :=
  request cfg "get_balance" (.obj []) outcome

/-- address: get_address, then unwrap the address field of the payload. -/
def address (cfg : Config) (outcome : TransportOutcome) : CallOutcome :=
  unwrapField "address" (request cfg "get_address" (.obj []) outcome)

/-- A transfer destination: amount and address. -/
structure Destination where
  amount : ℚ
  address : String

/-- Encoding of a destination as it is serialised into the params. -/
def Destination.toJson (d : Destination) : Json :=
  .obj [("amount", .num d.amount), ("address", .str d.address)]

/-- The options object of transfer and transferSplit; an omitted field
reads as undefined, modelled by none. -/
structure TransferOptions where
  mixin : Option ℚ
  unlockTime : Option ℚ
  pid : Option String
  doNotRelay : Option Bool
  priority : Option ℚ
  getTxHex : Option Bool
  getTxKey : Option Bool
  newAlgorithm : Option Bool

/-- The defaulted `= {}` options object: every property reads as
undefined. -/
def TransferOptions.empty : TransferOptions :=
  ⟨none, none, none, none, none, none, none, none⟩

/-- The amount conversion helper of the source, read in exact rational
arithmetic: multiply by 10^12 and round to the nearest integer, ties
away from the lower value as toFixed(0) does. The source computes this
in IEEE-754 double precision; the exact reading is adequate for the
structural claims proved below, which do not depend on rounding
details of the double arithmetic. -/
def convert (a : ℚ) : ℚ :=
  ((⌊a * 1000000000000 + 1 / 2⌋ : ℤ) : ℚ)

/-- The in-place mutation destinations.forEach of transfer and
transferSplit: every amount is replaced by its conversion. -/
def convertDestinations (dests : List Destination) : List Destination :=
  dests.map (fun d => { d with amount := convert d.amount })

/-- The params object built by transfer from the (already mutated)
destinations and the options, every optional field defaulted through
`||`. -/
def transferParams (dests : List Destination) (o : TransferOptions) : Json :=
  .obj [("destinations", .arr (dests.map Destination.toJson)),
        ("mixin", .num (jsOrNum o.mixin 4)),
        ("unlock_time", .num (jsOrNum o.unlockTime 0)),
        ("payment_id", jsOrNull o.pid),
        ("do_not_relay", .bool (jsOrBool o.doNotRelay false)),
        ("priority", .num (jsOrNum o.priority 0)),
        ("get_tx_hex", .bool (jsOrBool o.getTxHex false)),
        ("get_tx_key", .bool (jsOrBool o.getTxKey false))]

/-- The params object built by transferSplit: transferParams plus the
new_algorithm field. -/
def transferSplitParams (dests : List Destination) (o : TransferOptions) : Json :=
  .obj [("destinations", .arr (dests.map Destination.toJson)),
        ("mixin", .num (jsOrNum o.mixin 4)),
        ("unlock_time", .num (jsOrNum o.unlockTime 0)),
        ("payment_id", jsOrNull o.pid),
        ("do_not_relay", .bool (jsOrBool o.doNotRelay false)),
        ("priority", .num (jsOrNum o.priority 0)),
        ("get_tx_hex", .bool (jsOrBool o.getTxHex false)),
        ("get_tx_key", .bool (jsOrBool o.getTxKey false)),
        ("new_algorithm", .bool (jsOrBool o.newAlgorithm false))]

/-- transfer: mutates the destination amounts in place, builds the
params from the mutated array, and dispatches. The mutated array is
returned as the second component (explicit state passing for the
in-place forEach of the source). -/
def transfer (cfg : Config) (dests : List Destination) (o : TransferOptions)
    (outcome : TransportOutcome) : CallOutcome × List Destination :=
  let ds := convertDestinations dests
  (request cfg "transfer" (transferParams ds o) outcome, ds)

/-- transferSplit: same mutation and dispatch shape as transfer, with
the transfer_split method and the extra new_algorithm field. -/
def transferSplit (cfg : Config) (dests : List Destination) (o : TransferOptions)
    (outcome : TransportOutcome) : CallOutcome × List Destination :=
  let ds := convertDestinations dests
  (request cfg "transfer_split" (transferSplitParams ds o) outcome, ds)

/-- sweepDust: sweep_dust, unwraps tx_hash_list. -/
def sweepDust (cfg : Config) (outcome : TransportOutcome) : CallOutcome :=
  unwrapField "tx_hash_list" (request cfg "sweep_dust" (.obj []) outcome)

/-- sweepAll: sweep_all with the target address, pass-through. -/
def sweepAll (cfg : Config) (addr : String) (outcome : TransportOutcome) : CallOutcome :=
  request cfg "sweep_all" (.obj [("address", .str addr)]) outcome

/-- getPayments: get_payments, unwraps payments. -/
def getPayments (cfg : Config) (pid : String) (outcome : TransportOutcome) : CallOutcome :=
  unwrapField "payments" (request cfg "get_payments" (.obj [("payment_id", .str pid)]) outcome)

/-- getBulkPayments: get_bulk_payments, unwraps payments. -/
def getBulkPayments (cfg : Config) (pids : List String) (minHeight : ℚ)
    (outcome : TransportOutcome) : CallOutcome :=
  unwrapField "payments"
    (request cfg "get_bulk_payments"
      (.obj [("payment_ids", .arr (pids.map Json.str)),
             ("min_block_height", .num minHeight)]) outcome)

/-- incomingTransfers: incoming_transfers, unwraps transfers. -/
def incomingTransfers (cfg : Config) (ty : String) (outcome : TransportOutcome) : CallOutcome :=
  unwrapField "transfers"
    (request cfg "incoming_transfers" (.obj [("transfer_type", .str ty)]) outcome)

/-- queryKey: query_key, unwraps key. -/
def queryKey (cfg : Config) (ty : String) (outcome : TransportOutcome) : CallOutcome :=
  unwrapField "key" (request cfg "query_key" (.obj [("key_type", .str ty)]) outcome)

/-- makeIntegratedAddress: make_integrated_address, unwraps
integrated_address. -/
def makeIntegratedAddress (cfg : Config) (pid : String)
    (outcome : TransportOutcome) : CallOutcome :=
  unwrapField "integrated_address"
    (request cfg "make_integrated_address" (.obj [("payment_id", .str pid)]) outcome)

/-- splitIntegratedAddress: split_integrated_address, pass-through. -/
def splitIntegratedAddress (cfg : Config) (addr : String)
    (outcome : TransportOutcome) : CallOutcome :=
  request cfg "split_integrated_address"
    (.obj [("integrated_address", .str addr)]) outcome

/-- getHeight: getheight, unwraps height. -/
def getHeight (cfg : Config) (outcome : TransportOutcome) : CallOutcome :=
  unwrapField "height" (request cfg "getheight" (.obj []) outcome)

/-- Raw transport outcome: the promise rejects with an arbitrary reason
value, or resolves to an arbitrary parsed body (any JSON document,
including null; an empty body yields undefined). Unlike
TransportOutcome this does not presuppose the typed envelope shape. -/
inductive RawOutcome where
  | reject : Json → RawOutcome
  | resolve : Json → RawOutcome

/-- The error side of the result in the raw model: the rejection reason
passed through unchanged, or a JavaScript Error; jsError records the
value the Error constructor was applied to (for a string argument the
Error message is that string verbatim). -/
inductive RawErrVal where
  | cause : Json → RawErrVal
  | jsError : Json → RawErrVal

/-- A tagged result value in the raw model. -/
inductive RawResult where
  | ok : Json → RawResult
  | err : RawErrVal → RawResult

/-- What the async body of an operation does at runtime: return a
tagged Result, fulfilling the promise, or throw (a TypeError from a
property access on undefined or null), rejecting the promise with no
Result. -/
inductive DispatchBehavior where
  | returns : RawResult → DispatchBehavior
  | throws : DispatchBehavior

/-- The response-handling tail of Wallet.request (lines 84 to 101) at
full runtime fidelity. protect yields res and err: on rejection err is
the reason and res is undefined, on resolution err is undefined and res
is the body. The if (err) guard is a truthiness check, so a falsy
rejection reason falls through to the res!!.error access on undefined
and throws; a resolved body of null (or undefined) throws at the same
access; every other resolved body is handled by property access, which
on non-objects yields undefined without throwing. -/
def requestRaw (outcome : RawOutcome) : DispatchBehavior :=
  match outcome with
  | .reject reason =>
    if isFalsy reason = false then .returns (.err (.cause reason))
    else .throws
  | .resolve body =>
    match body with
    | .undefined => .throws
    | .null => .throws
    | _ =>
      if isFalsy (getField body "error") = false then
        .returns (.err (.jsError (getField (getField body "error") "message")))
      else if isFalsy (getField body "result") then
        .returns (.err (.jsError (.str corruptedMsg)))
      else .returns (.ok (getField body "result"))

/-- The field-unwrap tail in the raw model: a throw in the awaited
dispatch rethrows through the awaiting operation; a returned Result is
unwrapped as in unwrapField. -/
def unwrapFieldRaw (k : String) (b : DispatchBehavior) : DispatchBehavior :=
  match b with
  | .throws => .throws
  | .returns r =>
    match r with
    | .ok v => if isFalsy v then .returns (.ok v) else .returns (.ok (getField v k))
    | .err e => .returns (.err e)

/-- The address operation in the raw model: dispatch, then unwrap the
address field. -/
def addressRaw (outcome : RawOutcome) : DispatchBehavior :=
  unwrapFieldRaw "address" (requestRaw outcome)

/-- Claim C1, counterexample: the claim says the Err of a protocol error
carries exactly both the numeric code c and the message m. On two error
envelopes that differ only in the code (7 versus 8, same message), the
operation returns the identical Err value, holding only the message: the
code is discarded, so the Err cannot carry it. -/
theorem protocol_error_code_dropped :
    (createWallet (mkWallet none none none none) none none none
        (.resolve ⟨"create_wallet", "0", none, some ⟨7, "boom"⟩⟩)).result
      = (createWallet (mkWallet none none none none) none none none
          (.resolve ⟨"create_wallet", "0", none, some ⟨8, "boom"⟩⟩)).result
    ∧ (createWallet (mkWallet none none none none) none none none
        (.resolve ⟨"create_wallet", "0", none, some ⟨7, "boom"⟩⟩)).result
      = .err (.jsError "boom") :=
  ⟨rfl, rfl⟩

/-- Claim C1, amended: for every inbound envelope whose error field is
present with message m, every public operation returns Err carrying the
message m verbatim; the numeric code is discarded. -/
theorem protocol_error_message_verbatim :
    ∀ (cfg : Config) (e : RPCCallError) (rm rid : String) (rr : Option Json)
      (f p l : Option String) (dests : List Destination) (o : TransferOptions)
      (a1 a2 pid pid2 ty ty2 : String) (pids : List String) (mh : ℚ),
    (createWallet cfg f p l (.resolve ⟨rm, rid, rr, some e⟩)).result = .err (.jsError e.message)
    ∧ (openWallet cfg f p (.resolve ⟨rm, rid, rr, some e⟩)).result = .err (.jsError e.message)
    ∧ (stopWallet cfg (.resolve ⟨rm, rid, rr, some e⟩)).result = .err (.jsError e.message)
    ∧ (getBalance cfg (.resolve ⟨rm, rid, rr, some e⟩)).result = .err (.jsError e.message)
    ∧ (address cfg (.resolve ⟨rm, rid, rr, some e⟩)).result = .err (.jsError e.message)
    ∧ (transfer cfg dests o (.resolve ⟨rm, rid, rr, some e⟩)).1.result = .err (.jsError e.message)
    ∧ (transferSplit cfg dests o (.resolve ⟨rm, rid, rr, some e⟩)).1.result = .err (.jsError e.message)
    ∧ (sweepDust cfg (.resolve ⟨rm, rid, rr, some e⟩)).result = .err (.jsError e.message)
    ∧ (sweepAll cfg a1 (.resolve ⟨rm, rid, rr, some e⟩)).result = .err (.jsError e.message)
    ∧ (getPayments cfg pid (.resolve ⟨rm, rid, rr, some e⟩)).result = .err (.jsError e.message)
    ∧ (getBulkPayments cfg pids mh (.resolve ⟨rm, rid, rr, some e⟩)).result = .err (.jsError e.message)
    ∧ (incomingTransfers cfg ty (.resolve ⟨rm, rid, rr, some e⟩)).result = .err (.jsError e.message)
    ∧ (queryKey cfg ty2 (.resolve ⟨rm, rid, rr, some e⟩)).result = .err (.jsError e.message)
    ∧ (makeIntegratedAddress cfg pid2 (.resolve ⟨rm, rid, rr, some e⟩)).result = .err (.jsError e.message)
    ∧ (splitIntegratedAddress cfg a2 (.resolve ⟨rm, rid, rr, some e⟩)).result = .err (.jsError e.message)
    ∧ (getHeight cfg (.resolve ⟨rm, rid, rr, some e⟩)).result = .err (.jsError e.message) :=
  fun _ _ _ _ _ _ _ _ _ _ _ _ _ _ _ _ _ _ =>
    ⟨rfl, rfl, rfl, rfl, rfl, rfl, rfl, rfl, rfl, rfl, rfl, rfl, rfl, rfl, rfl, rfl⟩

/-- Claim C2, counterexample: the claim says every payload X in a
well-formed result envelope yields Ok(X). On the envelope carrying the
payload 0 (a falsy JavaScript value) with no error field, the dispatch
returns Err with the corrupted-response message instead of Ok(0). -/
theorem falsy_result_not_ok :
    (getBalance (mkWallet none none none none)
        (.resolve ⟨"get_balance", "0", some (.num 0), none⟩)).result
      = .err (.jsError corruptedMsg)
    ∧ (getBalance (mkWallet none none none none)
        (.resolve ⟨"get_balance", "0", some (.num 0), none⟩)).result
      ≠ .ok (.num 0) := by
  constructor
  · rfl
  · intro h
    exact nomatch h

/-- Claim C2, amended: for every truthy payload X, a well-formed result
envelope (no error field) yields Ok(X) from the dispatch primitive and
from the pass-through operations, and Ok of the documented subfield of X
from the field-unwrap operations. -/
theorem truthy_result_ok :
    ∀ (cfg : Config) (rm rid : String) (f p l : Option String) (X : Json),
      isFalsy X = false →
      handleResponse (.resolve ⟨rm, rid, some X, none⟩) = .ok X
      ∧ (getBalance cfg (.resolve ⟨rm, rid, some X, none⟩)).result = .ok X
      ∧ (createWallet cfg f p l (.resolve ⟨rm, rid, some X, none⟩)).result = .ok X
      ∧ (address cfg (.resolve ⟨rm, rid, some X, none⟩)).result = .ok (getField X "address")
      ∧ (getHeight cfg (.resolve ⟨rm, rid, some X, none⟩)).result = .ok (getField X "height")
      ∧ (sweepDust cfg (.resolve ⟨rm, rid, some X, none⟩)).result
          = .ok (getField X "tx_hash_list")
      ∧ (queryKey cfg "view_key" (.resolve ⟨rm, rid, some X, none⟩)).result
          = .ok (getField X "key") := by
  intro cfg rm rid f p l X h
  refine ⟨?_, ?_, ?_, ?_, ?_, ?_, ?_⟩ <;>
    simp [handleResponse, getBalance, createWallet, address, getHeight, sweepDust,
      queryKey, request, unwrapField, h]

/-- Witness for the amended claim C2 at a concrete truthy payload: the
address lookup on a result envelope holding an object with an address
field returns Ok of that address string, the wrapper key discarded. -/
theorem truthy_result_ok_witness :
    isFalsy (.obj [("address", Json.str "4abc")]) = false
    ∧ (address (mkWallet none none none none)
        (.resolve ⟨"get_address", "0", some (.obj [("address", .str "4abc")]), none⟩)).result
      = .ok (.str "4abc") := by
  refine ⟨rfl, ?_⟩
  exact (truthy_result_ok (mkWallet none none none none) "get_address" "0"
    none none none (.obj [("address", Json.str "4abc")]) rfl).2.2.2.1

/-- Claim C3, counterexample: the claim says the malformed-response
classification occurs only when the body has neither result nor error.
On a body whose result field is present (holding the falsy empty
string) and whose error field is absent, the operation still returns
Err with the fixed malformed-response message. -/
theorem malformed_with_result_present :
    (stopWallet (mkWallet none none none none)
        (.resolve ⟨"stop_wallet", "0", some (.str ""), none⟩)).result
      = .err (.jsError corruptedMsg)
    ∧ (some (Json.str "") : Option Json) ≠ none := by
  refine ⟨rfl, ?_⟩
  intro h
  exact nomatch h

/-- Claim C3, amended: for a response with no error field, the
malformed-response classification (Err with the fixed message) occurs
exactly when the result field is absent or falsy; transport failure and
protocol error take priority in that order; and on a body with neither
result nor error every public operation returns that Err. -/
theorem malformed_response_classification :
    (∀ res : RPCCallResponse, res.error = none →
      (handleResponse (.resolve res) = .err (.jsError corruptedMsg)
        ↔ isFalsy (res.result.getD .null) = true))
    ∧ (∀ reason : Json, handleResponse (.reject reason) = .err (.cause reason))
    ∧ (∀ (res : RPCCallResponse) (e : RPCCallError), res.error = some e →
        handleResponse (.resolve res) = .err (.jsError e.message))
    ∧ (∀ (cfg : Config) (rm rid : String) (f p l : Option String)
         (dests : List Destination) (o : TransferOptions)
         (a1 a2 pid pid2 ty ty2 : String) (pids : List String) (mh : ℚ),
        (createWallet cfg f p l (.resolve ⟨rm, rid, none, none⟩)).result = .err (.jsError corruptedMsg)
        ∧ (openWallet cfg f p (.resolve ⟨rm, rid, none, none⟩)).result = .err (.jsError corruptedMsg)
        ∧ (stopWallet cfg (.resolve ⟨rm, rid, none, none⟩)).result = .err (.jsError corruptedMsg)
        ∧ (getBalance cfg (.resolve ⟨rm, rid, none, none⟩)).result = .err (.jsError corruptedMsg)
        ∧ (address cfg (.resolve ⟨rm, rid, none, none⟩)).result = .err (.jsError corruptedMsg)
        ∧ (transfer cfg dests o (.resolve ⟨rm, rid, none, none⟩)).1.result = .err (.jsError corruptedMsg)
        ∧ (transferSplit cfg dests o (.resolve ⟨rm, rid, none, none⟩)).1.result = .err (.jsError corruptedMsg)
        ∧ (sweepDust cfg (.resolve ⟨rm, rid, none, none⟩)).result = .err (.jsError corruptedMsg)
        ∧ (sweepAll cfg a1 (.resolve ⟨rm, rid, none, none⟩)).result = .err (.jsError corruptedMsg)
        ∧ (getPayments cfg pid (.resolve ⟨rm, rid, none, none⟩)).result = .err (.jsError corruptedMsg)
        ∧ (getBulkPayments cfg pids mh (.resolve ⟨rm, rid, none, none⟩)).result = .err (.jsError corruptedMsg)
        ∧ (incomingTransfers cfg ty (.resolve ⟨rm, rid, none, none⟩)).result = .err (.jsError corruptedMsg)
        ∧ (queryKey cfg ty2 (.resolve ⟨rm, rid, none, none⟩)).result = .err (.jsError corruptedMsg)
        ∧ (makeIntegratedAddress cfg pid2 (.resolve ⟨rm, rid, none, none⟩)).result = .err (.jsError corruptedMsg)
        ∧ (splitIntegratedAddress cfg a2 (.resolve ⟨rm, rid, none, none⟩)).result = .err (.jsError corruptedMsg)
        ∧ (getHeight cfg (.resolve ⟨rm, rid, none, none⟩)).result = .err (.jsError corruptedMsg)) := by
  refine ⟨?_, fun _ => rfl, ?_, ?_⟩
  · intro res h
    obtain ⟨rm, rid, rr, re⟩ := res
    simp only at h
    subst h
    cases rr with
    | none => simp [handleResponse, isFalsy]
    | some x =>
      cases hx : isFalsy x <;> simp [handleResponse, hx, isFalsy]
  · intro res e h
    obtain ⟨rm, rid, rr, re⟩ := res
    simp only at h
    subst h
    rfl
  · intro cfg rm rid f p l dests o a1 a2 pid pid2 ty ty2 pids mh
    exact ⟨rfl, rfl, rfl, rfl, rfl, rfl, rfl, rfl, rfl, rfl, rfl, rfl, rfl, rfl, rfl, rfl⟩

/-- Witness for the amended claim C3 at a concrete input: a resolved
body with neither result nor error is classified with the fixed
malformed-response message. -/
theorem malformed_response_classification_witness :
    handleResponse (.resolve ⟨"m", "0", none, none⟩) = .err (.jsError corruptedMsg) :=
  (malformed_response_classification.1 ⟨"m", "0", none, none⟩ rfl).mpr rfl

/-- Claim C5: omitting an optional argument produces a request field
equal to the documented default: filename monero_wallet, password empty,
language English for wallet creation and opening; mixin 4, unlock_time
0, do_not_relay false, priority 0, get_tx_hex false, get_tx_key false
for transfers (and new_algorithm false for split transfers). -/
theorem omitted_arguments_defaults :
    (∀ (cfg : Config) (outcome : TransportOutcome),
      (createWallet cfg none none none outcome).options.json.params
        = some (.obj [("filename", .str "monero_wallet"),
                      ("password", .str ""),
                      ("language", .str "English")]))
    ∧ (∀ (cfg : Config) (outcome : TransportOutcome),
      (openWallet cfg none none outcome).options.json.params
        = some (.obj [("filename", .str "monero_wallet"),
                      ("password", .str "")]))
    ∧ (∀ dests : List Destination,
        getField (transferParams dests TransferOptions.empty) "mixin" = .num 4
        ∧ getField (transferParams dests TransferOptions.empty) "unlock_time" = .num 0
        ∧ getField (transferParams dests TransferOptions.empty) "do_not_relay" = .bool false
        ∧ getField (transferParams dests TransferOptions.empty) "priority" = .num 0
        ∧ getField (transferParams dests TransferOptions.empty) "get_tx_hex" = .bool false
        ∧ getField (transferParams dests TransferOptions.empty) "get_tx_key" = .bool false)
    ∧ (∀ dests : List Destination,
        getField (transferSplitParams dests TransferOptions.empty) "new_algorithm" = .bool false)
    ∧ (∀ (cfg : Config) (dests : List Destination) (outcome : TransportOutcome),
        (transfer cfg dests TransferOptions.empty outcome).1.options.json.params
          = some (transferParams (convertDestinations dests) TransferOptions.empty)) :=
  ⟨fun _ _ => rfl, fun _ _ => rfl,
   fun _ => ⟨rfl, rfl, rfl, rfl, rfl, rfl⟩,
   fun _ => rfl, fun _ _ _ => rfl⟩

/-- Claim C6, counterexample: the claim says every outcome of the
transport call yields a Result tag. A promise rejection whose reason is
null is falsy, slips past the if (err) truthiness guard, and the
subsequent res!!.error access on undefined throws a TypeError: the
address operation rejects its promise with no Result. A resolved body
of JSON null likewise throws at the same access. -/
theorem falsy_rejection_throws :
    addressRaw (.reject .null) = .throws
    ∧ requestRaw (.resolve .null) = .throws :=
  ⟨rfl, rfl⟩

/-- Claim C6, amended: public operations return a tagged Result for
every transport outcome except two crash cases — a rejection whose
reason is falsy and a resolved body of null (or undefined), where the
res!!.error access throws a TypeError and the promise rejects with no
Result. For every truthy rejection reason the dispatch returns Err
wrapping that reason; every other resolved body yields a tagged
Result; and the field-unwrap tail propagates an Err from the dispatch
primitive unchanged (and rethrows a throw unchanged), transforming only
a success payload. -/
theorem no_throw_outside_crash_cases :
    (∀ reason : Json, isFalsy reason = false →
      requestRaw (.reject reason) = .returns (.err (.cause reason)))
    ∧ (∀ body : Json, body ≠ .null → body ≠ .undefined →
        ∃ r, requestRaw (.resolve body) = .returns r)
    ∧ (∀ (k : String) (e : RawErrVal),
        unwrapFieldRaw k (.returns (.err e)) = .returns (.err e))
    ∧ (∀ k : String, unwrapFieldRaw k .throws = .throws)
    ∧ (∀ (outcome : RawOutcome) (e : RawErrVal),
        requestRaw outcome = .returns (.err e) →
        addressRaw outcome = .returns (.err e))
    ∧ (∀ (k : String) (v : Json), isFalsy v = false →
        unwrapFieldRaw k (.returns (.ok v)) = .returns (.ok (getField v k))) := by
  refine ⟨fun reason h => ?_, fun body h1 h2 => ?_, fun _ _ => rfl, fun _ => rfl,
    fun outcome e h => ?_, fun k v h => ?_⟩
  · simp [requestRaw, h]
  · cases body with
    | null => exact absurd rfl h1
    | undefined => exact absurd rfl h2
    | bool b => exact ⟨_, rfl⟩
    | num q => exact ⟨_, rfl⟩
    | str s => exact ⟨_, rfl⟩
    | arr xs => exact ⟨_, rfl⟩
    | obj fields =>
      cases he : isFalsy (getField (.obj fields) "error") with
      | false =>
        exact ⟨.err (.jsError (getField (getField (.obj fields) "error") "message")),
          by simp [requestRaw, he]⟩
      | true =>
        cases hr : isFalsy (getField (.obj fields) "result") with
        | false =>
          exact ⟨.ok (getField (.obj fields) "result"), by simp [requestRaw, he, hr]⟩
        | true =>
          exact ⟨.err (.jsError (.str corruptedMsg)), by simp [requestRaw, he, hr]⟩
  · simp [addressRaw, unwrapFieldRaw, h]
  · simp [unwrapFieldRaw, h]

/-- Witness for the amended claim C6 at concrete inputs: a truthy
rejection reason yields Err wrapping that reason, and an empty object
body yields a tagged Result. -/
theorem no_throw_outside_crash_cases_witness :
    requestRaw (.reject (.str "socket hang up"))
      = .returns (.err (.cause (.str "socket hang up")))
    ∧ (∃ r, requestRaw (.resolve (.obj [])) = .returns r) :=
  ⟨no_throw_outside_crash_cases.1 (.str "socket hang up") rfl,
   no_throw_outside_crash_cases.2.1 (.obj []) (fun h => nomatch h) (fun h => nomatch h)⟩

/-- Claim C7: basic-auth credentials are attached to the outbound
request exactly when the configured user name is non-empty, and when
attached they hold the configured user and password with immediate
sending disabled. -/
theorem auth_iff_user_nonempty :
    ∀ (cfg : Config) (m : String) (p : Json) (outcome : TransportOutcome),
      (cfg.user ≠ "" →
        (request cfg m p outcome).options.auth
          = some ⟨cfg.user, cfg.pass, false⟩)
      ∧ (cfg.user = "" → (request cfg m p outcome).options.auth = none) := by
  intro cfg m p outcome
  constructor <;> intro h <;> simp [request, buildOptions, h]

/-- Witness for claim C7 at a concrete configuration with a non-empty
user name: the auth object is attached with sendImmediately false. -/
theorem auth_iff_user_nonempty_witness :
    (request (mkWallet none none (some "alice") (some "pw"))
        "get_balance" (.obj []) (.reject .null)).options.auth
      = some ⟨"alice", "pw", false⟩ :=
  (auth_iff_user_nonempty (mkWallet none none (some "alice") (some "pw"))
    "get_balance" (.obj []) (.reject .null)).1 (by decide)

/-- Claim C8: an entirely defaulted construction yields hostname
127.0.0.1, port 18082, empty user and password; and every dispatch
posts to the json_rpc URL of the configured host and port a body with
jsonrpc 2.0, id 0, the method name, and the params object when it is
truthy. -/
theorem construction_defaults_and_wire_format :
    mkWallet none none none none = ⟨"127.0.0.1", 18082, "", ""⟩
    ∧ (∀ (cfg : Config) (m : String) (p : Json) (outcome : TransportOutcome),
        (request cfg m p outcome).url
          = "http://" ++ cfg.hostname ++ ":" ++ toString cfg.port ++ "/json_rpc"
        ∧ (request cfg m p outcome).options.json.jsonrpc = "2.0"
        ∧ (request cfg m p outcome).options.json.id = "0"
        ∧ (request cfg m p outcome).options.json.method = m
        ∧ (isFalsy p = false →
            (request cfg m p outcome).options.json.params = some p)) := by
  refine ⟨rfl, ?_⟩
  intro cfg m p outcome
  exact ⟨rfl, rfl, rfl, rfl, fun h => by simp [request, buildOptions, h]⟩

/-- Witness for claim C8 at a concrete dispatch: the defaulted empty
params object is truthy and is included in the posted body. -/
theorem construction_defaults_and_wire_format_witness :
    (request (mkWallet none none none none) "get_balance" (.obj [])
        (.reject .null)).options.json.params = some (.obj []) :=
  (construction_defaults_and_wire_format.2 (mkWallet none none none none)
    "get_balance" (.obj []) (.reject .null)).2.2.2.2 rfl

/-- Claim C9: transfer and transferSplit replace every amount of the
caller-supplied destinations array by its conversion (the array handed
back is the mutated one the params were built from), so feeding the
returned array into a second call applies the conversion a second time
to the already-converted amounts. -/
theorem transfer_mutates_destinations :
    ∀ (cfg cfg2 : Config) (dests : List Destination) (o o2 : TransferOptions)
      (outcome outcome2 : TransportOutcome),
      (transfer cfg dests o outcome).2
        = dests.map (fun d => { d with amount := convert d.amount })
      ∧ (transferSplit cfg dests o outcome).2
        = dests.map (fun d => { d with amount := convert d.amount })
      ∧ (transfer cfg dests o outcome).1.options.json.params
        = some (transferParams ((transfer cfg dests o outcome).2) o)
      ∧ (transfer cfg2 ((transfer cfg dests o outcome).2) o2 outcome2).2
        = dests.map (fun d => { d with amount := convert (convert d.amount) })
      ∧ (transferSplit cfg2 ((transferSplit cfg dests o outcome).2) o2 outcome2).2
        = dests.map (fun d => { d with amount := convert (convert d.amount) }) := by
  intro cfg cfg2 dests o o2 outcome outcome2
  refine ⟨rfl, rfl, rfl, ?_, ?_⟩ <;>
    simp [transfer, transferSplit, convertDestinations, List.map_map, Function.comp]

/-- Claim C10: defaulting applies to every falsy argument, not only to
omitted ones: an explicitly passed empty hostname, port 0, mixin 0 or
empty filename is replaced by the documented default. -/
theorem falsy_arguments_get_defaults :
    mkWallet (some "") (some 0) (some "") (some "") = ⟨"127.0.0.1", 18082, "", ""⟩
    ∧ (∀ dests : List Destination,
        getField (transferParams dests
            ⟨some 0, some 0, none, some false, some 0, some false, some false, some false⟩)
            "mixin" = .num 4
        ∧ getField (transferParams dests
            ⟨some 0, some 0, none, some false, some 0, some false, some false, some false⟩)
            "unlock_time" = .num 0
        ∧ getField (transferParams dests
            ⟨some 0, some 0, none, some false, some 0, some false, some false, some false⟩)
            "priority" = .num 0)
    ∧ (∀ (cfg : Config) (outcome : TransportOutcome),
        (createWallet cfg (some "") (some "") (some "") outcome).options.json.params
          = some (.obj [("filename", .str "monero_wallet"),
                        ("password", .str ""),
                        ("language", .str "English")])) := by
  refine ⟨?_, fun _ => ⟨?_, ?_, ?_⟩, fun _ _ => ?_⟩ <;> rfl

end Monero
